import Mathlib

/- Shallow embedding of the aioddwrt client library (aioddwrt/ddwrt.py and
aioddwrt/connection.py).  Strings are processed as character lists with
structural recursion so that every definition evaluates inside the kernel.
Python dicts over string keys are modelled as association lists with
insertion-order-preserving update (`upsert`), matching CPython semantics.
Regular-expression searches over shell output lines are modelled at
whitespace-token granularity: the embedded patterns (_LEASES_REGEX,
_ARP_REGEX) separate their fields by single `\s` gaps, and the router
output lines they are applied to are whitespace-separated field lines, so
a token-window scan computes the same group dictionaries. -/

namespace Aioddwrt

/-- Python dict assignment `d[k] = v` on an association list: replaces the
value in place if the key is present (keeping first-insertion order),
otherwise appends, as CPython dicts do. -/
def upsert {β : Type} : List (String × β) → String → β → List (String × β)
  | [], k, v => [(k, v)]
  | (k', v') :: rest, k, v =>
    if k' = k then (k, v) :: rest else (k', v') :: upsert rest k v

/-- Python dict lookup `d.get(k)` on an association list. -/
def lookupA {β : Type} : List (String × β) → String → Option β
  | [], _ => none
  | (k', v) :: rest, k => if k' = k then some v else lookupA rest k

/-- Keys of an association list, in order. -/
def keysA {β : Type} (m : List (String × β)) : List String := m.map (·.1)

/-- DdWrt._parse_lines (ddwrt.py:86-102): fold over the input lines; a falsy
(empty) line is skipped, a line on which the regex search fails is logged
and skipped, and each successful search appends its group dictionary.  The
regex search is abstracted as a function returning `none` on mismatch. -/
def parse_lines {α : Type} (lines : List String) (search : String → Option α) :
    List α :=
  lines.foldl
    (fun results line =>
      if line ≠ "" then
        match search line with
        | none => results
        | some g => results ++ [g]
      else results)
    []

/-- Splits a character list at every character satisfying `p`, keeping empty
pieces (the boundary structure of Python `re` splitting / scanning). -/
def splitByAux (p : Char → Bool) : List Char → List Char → List (List Char)
  | [], acc => [acc.reverse]
  | c :: cs, acc =>
    if p c then acc.reverse :: splitByAux p cs []
    else splitByAux p cs (c :: acc)

/-- Python `str.split(sep)` on character lists (keeps empty pieces). -/
def splitOnChar (sep : Char) (cs : List Char) : List (List Char) :=
  splitByAux (fun c => c = sep) cs []

/-- The whitespace-separated tokens of a line (empty tokens dropped). -/
def tokenize (line : String) : List String :=
  ((splitByAux Char.isWhitespace line.data []).filter (· ≠ [])).map
    (fun cs => (⟨cs⟩ : String))

/-- Python `str.startswith` on character lists. -/
def startsWithChars : List Char → List Char → Bool
  | _, [] => true
  | [], _ :: _ => false
  | c :: cs, p :: ps => c = p && startsWithChars cs ps

/-- Python `str.upper()` (ASCII case mapping on router data). -/
def strUpper (s : String) : String := ⟨s.data.map Char.toUpper⟩

/-- Regex class `\w`: word character. -/
def isWordChar (c : Char) : Bool := c.isAlphanum || c = '_'

/-- Regex class `[0-9a-fA-F]`: hexadecimal digit. -/
def isHexChar (c : Char) : Bool :=
  c.isDigit || ('a' ≤ c && c ≤ 'f') || ('A' ≤ c && c ≤ 'F')

/-- Regex class `[:-]`: the MAC separators accepted by _LEASES_REGEX and
_ARP_REGEX (ddwrt.py:19, ddwrt.py:37). -/
def isMacSep (c : Char) : Bool := c = ':' || c = '-'

/-- The mac group `(([0-9a-fA-F]{2}[:-]){5}([0-9a-fA-F]{2}))` of
_LEASES_REGEX and _ARP_REGEX: six two-hex-digit pairs joined by five
separators, each independently `:` or `-`. -/
def isLeaseMac (s : String) : Bool :=
  match s.data with
  | [a1, a2, p1, b1, b2, p2, c1, c2, p3, d1, d2, p4, e1, e2, p5, f1, f2] =>
    isHexChar a1 && isHexChar a2 && isMacSep p1 &&
    isHexChar b1 && isHexChar b2 && isMacSep p2 &&
    isHexChar c1 && isHexChar c2 && isMacSep p3 &&
    isHexChar d1 && isHexChar d2 && isMacSep p4 &&
    isHexChar e1 && isHexChar e2 && isMacSep p5 &&
    isHexChar f1 && isHexChar f2
  | _ => false

/-- One dotted group `[0-9]{1,3}` of the ip pattern. -/
def isIpGroup (cs : List Char) : Bool :=
  cs ≠ [] && cs.length ≤ 3 && cs.all Char.isDigit

/-- The ip group `([0-9]{1,3}[\.]){3}[0-9]{1,3}` of _LEASES_REGEX and
_ARP_REGEX: four 1-3 digit groups joined by dots. -/
def isIpStr (s : String) : Bool :=
  match splitOnChar '.' s.data with
  | [a, b, c, d] => isIpGroup a && isIpGroup b && isIpGroup c && isIpGroup d
  | _ => false

/-- Group dictionary produced by a successful _LEASES_REGEX search
(named groups mac, ip, host); the host fix-up and mac upper-casing of
async_get_leases mutate this record in place, as the Python dict is. -/
structure LeaseGroups where
  mac : String
  ip : String
  host : String
deriving DecidableEq

/-- Group dictionary produced by a successful _ARP_REGEX search. -/
structure ArpGroups where
  mac : String
  ip : String
deriving DecidableEq

/-- Last character of the token is a word character: a `\w+` run can close
exactly at the whitespace boundary in front of the next field. -/
def endsWordChar (s : String) : Bool :=
  match s.data.reverse with
  | c :: _ => isWordChar c
  | [] => false

/-- Token-window scan for _LEASES_REGEX
`\w+\s(mac)\s(ip)\s(host)` (ddwrt.py:17-21): the leftmost window of four
consecutive whitespace-separated tokens whose first token ends in a word
character (the `\w+` run closing at the field boundary), followed by a mac
token, an ip token and a non-empty host token (`[^\s]+`). -/
def leaseWindow : List String → Option LeaseGroups
  | t0 :: t1 :: t2 :: t3 :: rest =>
    if endsWordChar t0 && isLeaseMac t1 && isIpStr t2 && t3 ≠ "" then
      some ⟨t1, t2, t3⟩
    else leaseWindow (t1 :: t2 :: t3 :: rest)
  | _ => none

/-- Search of _LEASES_REGEX on one line, at token granularity. -/
def searchLease (line : String) : Option LeaseGroups :=
  leaseWindow (tokenize line)

/-- A token of the shape `(<ip>)`, the `\((?P<ip>...)\)` part of
_ARP_REGEX (ddwrt.py:33-39); returns the ip on success. -/
def parenIp (t : String) : Option String :=
  match t.data with
  | '(' :: rest =>
    match rest.reverse with
    | ')' :: mid =>
      if isIpStr ⟨mid.reverse⟩ then some ⟨mid.reverse⟩ else none
    | _ => none
  | _ => none

/-- Greedy pairing for _ARP_REGEX `.+\s\((ip)\)\s.+\s(mac)\s.*`: the two
greedy `.+` runs make the regex bind the mac group to the rightmost mac
token and the ip group to the rightmost parenthesised-ip token that still
leaves one token of `.+` on each side; candidate mac indices are tried
right to left, and for each the rightmost admissible ip index (at least 1,
at most mac-index - 2) is taken. -/
def arpFindPair (toks : List String) : List Nat → Option ArpGroups
  | [] => none
  | j :: js =>
    let ipIdxs := ((List.range toks.length).filter
      (fun i => 1 ≤ i && i + 2 ≤ j && (parenIp (toks.getD i "")).isSome)).reverse
    match ipIdxs with
    | i :: _ =>
      match parenIp (toks.getD i "") with
      | some ip => some ⟨toks.getD j "", ip⟩
      | none => arpFindPair toks js
    | [] => arpFindPair toks js

/-- Search of _ARP_REGEX on one line, at token granularity. -/
def searchArp (line : String) : Option ArpGroups :=
  let toks := tokenize line
  let macIdxs :=
    ((List.range toks.length).filter
      (fun j => isLeaseMac (toks.getD j ""))).reverse
  arpFindPair toks macIdxs

/-- The devices-dict loop of async_get_leases (ddwrt.py:172-180): a `*`
hostname is blanked, the mac is upper-cased, and the record is stored in
the dict under its (upper-cased) mac. -/
def leases_to_devices (result : List LeaseGroups) :
    List (String × LeaseGroups) :=
  result.foldl
    (fun devices d =>
      let d1 := if d.host = "*" then { d with host := "" } else d
      let d2 := { d1 with mac := strUpper d1.mac }
      upsert devices d2.mac d2)
    []

/-- LEASES command `cat /tmp/dnsmasq.leases` (ddwrt.py:16). -/
def LEASES_CMD : String := "cat /tmp/dnsmasq.leases"

/-- ARP command `arp -n` (ddwrt.py:32). -/
def ARP_CMD : String := "arp -n"

/-- RX byte-counter command (ddwrt.py:41). -/
def RX_COMMAND : String := "cat /sys/class/net/eth0/statistics/rx_bytes"

/-- TX byte-counter command (ddwrt.py:42). -/
def TX_COMMAND : String := "cat /sys/class/net/eth0/statistics/tx_bytes"

/-- async_get_leases (ddwrt.py:161-180), non-http branch, as a function of
the lines the transport returns for LEASES_CMD: empty output yields the
empty dict; `duid `-prefixed lines are filtered out; the remaining lines
go through _parse_lines with _LEASES_REGEX and then the devices-dict
loop. -/
def async_get_leases_shell (lines : List String) :
    List (String × LeaseGroups) :=
  if lines = [] then []
  else
    leases_to_devices
      (parse_lines
        (lines.filter (fun l => ¬ startsWithChars l.data "duid ".data))
        searchLease)

/-- The Device namedtuple (ddwrt.py:47). -/
structure Device where
  mac : String
  ip : Option String
  name : Option String
deriving DecidableEq

/-- The devices-dict loop of async_get_arp (ddwrt.py:189-194): each matched
row's mac is upper-cased and stored as `Device(mac, ip, None)` under the
upper-cased mac (the `device['mac'] is not None` guard is vacuous: the mac
group always participates in a successful match). -/
def arp_to_devices (result : List ArpGroups) : List (String × Device) :=
  result.foldl
    (fun devices d =>
      let mac := strUpper d.mac
      upsert devices mac ⟨mac, some d.ip, none⟩)
    []

/-- async_get_arp (ddwrt.py:182-194) as a function of the protocol and the
lines the transport would return for ARP_CMD; the second component is the
list of commands actually issued to the transport.  The http branch
returns the empty dict before any transport interaction. -/
def async_get_arp (protocol : String) (lines : List String) :
    List (String × Device) × List String :=
  if protocol = "http" then ([], [])
  else if lines = [] then ([], [ARP_CMD])
  else (arp_to_devices (parse_lines lines searchArp), [ARP_CMD])

/-- One match attempt of the _HTTP_DATA pattern `\{(\w+)::([^\}]*)\}`
(ddwrt.py:45) at a position just after an opening brace: a non-empty run
of word characters, the literal `::`, a run of non-`\x7d` characters, and
the closing brace; returns the two groups and the remaining input. -/
def httpTryMatch (cs : List Char) : Option (String × String × List Char) :=
  let key := cs.takeWhile isWordChar
  if key = [] then none
  else
    match cs.dropWhile isWordChar with
    | ':' :: ':' :: rest =>
      let v := rest.takeWhile (fun c => c ≠ '}')
      match rest.dropWhile (fun c => c ≠ '}') with
      | '}' :: rest2 => some (⟨key⟩, ⟨v⟩, rest2)
      | _ => none
    | _ => none

/-- Findall of _HTTP_DATA: left-to-right non-overlapping scan for the pattern
`\{(\w+)::([^\}]*)\}`; on a failed attempt the scan advances one
character.  Each step consumes at least one character, so fuel equal to
the input length suffices. -/
def httpFindall : Nat → List Char → List (String × String)
  | 0, _ => []
  | _, [] => []
  | fuel + 1, c :: cs =>
    if c = '{' then
      match httpTryMatch cs with
      | some (k, v, rest) => (k, v) :: httpFindall fuel rest
      | none => httpFindall fuel cs
    else httpFindall fuel cs

/-- DdWrt._parse_http_data (ddwrt.py:104-106): the dict comprehension over
the findall matches (a repeated key keeps its last value). -/
def parse_http_data (response : String) : List (String × String) :=
  (httpFindall response.data.length response.data).foldl
    (fun m kv => upsert m kv.1 kv.2) []

/-- DdWrt._parse_http_leases (ddwrt.py:123-142): fetch the raw
`dhcp_leases` value (a missing key makes the Python code fail on
`None.replace`, modelled as `none`), delete every double quote, single
quote and space, split on commas, and regroup the flat array into runs of
5 in the fixed order name, ip, mac, lease-duration, vendor-id - the record
keeps mac (third element), ip (second) and host (first). -/
def parse_http_leases (response : String) : Option (List LeaseGroups) :=
  match lookupA (parse_http_data response) "dhcp_leases" with
  | none => none
  | some raw =>
    let cleaned := raw.data.filter
      (fun c => ¬ (c = '"' || c = '\'' || c = ' '))
    let elements := (splitOnChar ',' cleaned).map (fun cs => (⟨cs⟩ : String))
    let numClients := elements.length / 5
    some ((List.range numClients).foldl
      (fun results idx =>
        if idx * 5 + 2 < elements.length then
          results ++ [⟨elements.getD (idx * 5 + 2) "",
                       elements.getD (idx * 5 + 1) "",
                       elements.getD (idx * 5) ""⟩]
        else results)
      [])

/-- async_get_leases (ddwrt.py:161-180), http branch, as a function of the
body of the Status_Lan.live.asp page: _parse_http_leases followed by the
same devices-dict loop as the shell branch. -/
def async_get_leases_http (response : String) :
    Option (List (String × LeaseGroups)) :=
  (parse_http_leases response).map leases_to_devices

/-- Test fixture LEASES_DATA (tests/test_regex.py:45-49). -/
def LEASES_DATA : List String :=
  ["51910 01:02:03:04:06:08 123.123.123.125 TV 01:02:03:04:06:08\r",
   "79986 01:02:03:04:06:10 123.123.123.127 android 01:02:03:04:06:15\r",
   "23523 08:09:10:11:12:14 123.123.123.126 * 08:09:10:11:12:14\r"]

/-- Test fixture HTTP_LAN_DATA (tests/test_regex.py:94-112), the body of a
Status_Lan.live.asp page. -/
def HTTP_LAN_DATA : String :=
  "\n" ++
  "\x7blan_mac::AA:BB:CC:DD:EE:F0\x7d\n" ++
  "\x7blan_ip::192.168.1.1\x7d\n" ++
  "\x7blan_ip_prefix::192.168.1.\x7d\n" ++
  "\x7blan_netmask::255.255.255.0\x7d\n" ++
  "\x7blan_gateway::0.0.0.0\x7d\n" ++
  "\x7blan_dns::8.8.8.8\x7d\n" ++
  "\x7blan_proto::dhcp\x7d\n" ++
  "\x7bdhcp_daemon::DNSMasq\x7d\n" ++
  "\x7bdhcp_start::100\x7d\n" ++
  "\x7bdhcp_num::50\x7d\n" ++
  "\x7bdhcp_lease_time::1440\x7d\n" ++
  "\x7bdhcp_leases:: 'TV','123.123.123.125','01:02:03:04:06:08'," ++
  "'1 day 00:00:00','113','android','123.123.123.127'," ++
  "'01:02:03:04:06:10','Static','201','*','123.123.123.126'," ++
  "'08:09:10:11:12:14','Static','201'\x7d\x7d\n" ++
  "\x7bpptp_leases::\x7d\n" ++
  "\x7bpppoe_leases::\x7d\n" ++
  "\x7barp_table:: 'device_1','192.168.1.113','AA:BB:CC:DD:EE:00','13'," ++
  "'device_2','192.168.1.201','AA:BB:CC:DD:EE:01','1'\x7d\n" ++
  "\x7buptime:: 12:28:48 up 132 days, 18:02,  load average: 0.15, 0.19," ++
  " 0.21\x7d\n" ++
  "\x7bipinfo::&nbsp;IP: 192.168.0.108\x7d\n"

/-- CHANGE_TIME_CACHE_DEFAULT (ddwrt.py:14). -/
def CHANGE_TIME_CACHE_DEFAULT : ℚ := 5

/-- The mutable per-instance fields of DdWrt set in __init__
(ddwrt.py:53-65) that the byte-total cache and the transfer-rate tracker
touch.  Timestamps (datetime.utcnow values) are modelled as rational
seconds; elapsed time `(a - b).total_seconds()` is `a - b`. -/
structure DdWrtState where
  rx_latest : Option ℕ
  tx_latest : Option ℕ
  latest_transfer_check : Option ℚ
  cache_time : ℚ
  trans_cache_timer : Option ℚ
  transfer_rates_cache : Option (ℕ × ℕ)
  latest_transfer_data : ℤ × ℤ
deriving DecidableEq

/-- DdWrt.__init__ (ddwrt.py:53-65): every tracker field starts as None and
the latest transfer data as (0, 0). -/
def initState (time_cache : ℚ) : DdWrtState :=
  ⟨none, none, none, time_cache, none, none, (0, 0)⟩

/-- async_get_bytes_total (ddwrt.py:196-205) as a function of the state, the
clock and the counters the two shell commands would report.  The guard is
`use_cache and self._trans_cache_timer and self._cache_time > elapsed`;
when it holds the method returns `self._transfer_rates_cache` (an Option:
it is None unless some code assigned it).  The method assigns no attribute
at all - in particular it never sets _trans_cache_timer or
_transfer_rates_cache, and no other code in the class does either - so it
returns no updated state; the second component lists the commands issued
to the transport. -/
def async_get_bytes_total (st : DdWrtState) (use_cache : Bool) (now : ℚ)
    (rx tx : ℕ) : Option (ℕ × ℕ) × List String :=
  if use_cache then
    match st.trans_cache_timer with
    | some t =>
      if st.cache_time > now - t then (st.transfer_rates_cache, [])
      else (some (rx, tx), [RX_COMMAND, TX_COMMAND])
    | none => (some (rx, tx), [RX_COMMAND, TX_COMMAND])
  else (some (rx, tx), [RX_COMMAND, TX_COMMAND])

/-- Python runtime errors surfacing in the modelled paths. -/
inductive PyErr where
  | typeError
deriving DecidableEq

/-- async_get_current_transfer_rates (ddwrt.py:217-247): fetches the byte
totals first; when either baseline counter is None it records the counters
and timestamp and returns `self._latest_transfer_data`; otherwise, inside
the 30-second floor it returns `self._latest_transfer_data` unchanged;
at or past the floor it computes the per-counter delta (`current` when
`current < previous`, else `current - previous`), stores the new baseline,
and returns `math.ceil(delta / elapsed)` per counter with a literal 0 for
a non-positive delta.  Subscripting a None byte-total (cache hit on the
never-written cache) or subtracting a None timestamp is a TypeError. -/
def async_get_current_transfer_rates (st : DdWrtState) (use_cache : Bool)
    (now : ℚ) (rx tx : ℕ) : Except PyErr (ℤ × ℤ) × DdWrtState × List String :=
  let fetched := async_get_bytes_total st use_cache now rx tx
  let cmds := fetched.2
  match st.rx_latest, st.tx_latest with
  | some rxp, some txp =>
    match st.latest_transfer_check with
    | none => (.error .typeError, st, cmds)
    | some tc =>
      let time_diff := now - tc
      if time_diff < 30 then (.ok st.latest_transfer_data, st, cmds)
      else
        match fetched.1 with
        | none => (.error .typeError, st, cmds)
        | some data =>
          let rxd : ℕ := if data.1 < rxp then data.1 else data.1 - rxp
          let txd : ℕ := if data.2 < txp then data.2 else data.2 - txp
          let rates : ℤ × ℤ :=
            (if rxd > 0 then ⌈(rxd : ℚ) / time_diff⌉ else 0,
             if txd > 0 then ⌈(txd : ℚ) / time_diff⌉ else 0)
          (.ok rates,
           { st with latest_transfer_check := some now,
                     rx_latest := some data.1,
                     tx_latest := some data.2,
                     latest_transfer_data := rates },
           cmds)
  | _, _ =>
    match fetched.1 with
    | none => (.error .typeError, st, cmds)
    | some data =>
      (.ok st.latest_transfer_data,
       { st with latest_transfer_check := some now,
                 rx_latest := some data.1,
                 tx_latest := some data.2 },
       cmds)

/-- Outcome of one `self._client.run(command)` attempt inside
`asyncio.wait_for(..., 9)` (connection.py:38). -/
inductive SshOutcome where
  | ok (stdoutData : String)
  | channelOpenError
  | timeout
deriving DecidableEq

/-- The value an `await` of SshConnection.async_run_command yields: either
a list of output lines, or - when the body executes
`return self.async_run_command(command, retry=True)` without awaiting it -
the un-awaited coroutine object of the recursive call. -/
inductive PyValue where
  | lines (ls : List String)
  | coroutine (retryArg : Bool)
deriving DecidableEq

/-- SshConnection fields relevant to the retry policy: the _connected flag
and whether the _client attribute is still bound (it is deleted on
timeout, connection.py:48). -/
structure SshState where
  connected : Bool
  hasClient : Bool
deriving DecidableEq

/-- Python `str.split(chr(10))` (connection.py:55), keeping empty pieces. -/
def splitOnNewline (s : String) : List String :=
  (splitOnChar '\n' s.data).map (fun cs => (⟨cs⟩ : String))

/-- SshConnection.async_run_command (connection.py:28-55) as a function of
the state, the retry flag and the outcome of the single command attempt it
performs (the lazy reconnect in the body is assumed to succeed; a connect
failure raises out of the method and is not part of this path).  On a
ChannelOpenError with retry unset the body reconnects and then returns
the RECURSIVE CALL ITSELF, `return self.async_run_command(command,
retry=True)`, with no await: the value handed to the caller is the
coroutine object and the retried command is never executed.  On a
ChannelOpenError with retry set it clears _connected and returns [].  On a
timeout it deletes _client, clears _connected and returns [].  On success
it sets _connected and returns `result.stdout.split(chr(10))`. -/
def async_run_command (st : SshState) (retry : Bool) (outcome : SshOutcome) :
    SshState × PyValue :=
  let st1 :=
    if st.connected then st else { st with connected := true, hasClient := true }
  match outcome with
  | .ok stdoutData =>
    ({ st1 with connected := true }, .lines (splitOnNewline stdoutData))
  | .channelOpenError =>
    if ¬ retry then
      ({ st1 with connected := true, hasClient := true }, .coroutine true)
    else
      ({ st1 with connected := false }, .lines [])
  | .timeout => ({ st1 with connected := false, hasClient := false }, .lines [])

/-- Opaque Python values passed positionally at construction time. -/
inductive PyObj where
  | strV (s : String)
  | sessionV (id : ℕ)
  | noneV
deriving DecidableEq

/-- The attribute record built by HttpConnection.__init__
(connection.py:166-174). -/
structure HttpConnection where
  host : PyObj
  username : PyObj
  password : PyObj
  session : PyObj
  is_connected : Bool
deriving DecidableEq

/-- HttpConnection.__init__ (connection.py:168-174) applied Python-style to
a positional argument list: the signature `(self, hostname, username,
password)` binds exactly three positionals and any other count raises
TypeError; the body stores the three, sets `self.session = None` (the
class accepts no session argument) and marks the connection connected. -/
def HttpConnection_init (args : List PyObj) : Except PyErr HttpConnection :=
  match args with
  | [hostname, username, password] => .ok ⟨hostname, username, password, .noneV, true⟩
  | _ => .error .typeError

/-- The http branch of the protocol dispatch in DdWrt.__init__
(ddwrt.py:68-70): it calls `HttpConnection(host, http_session, username,
password)` - four positional arguments. -/
def ddwrt_init_http_connection (host username password http_session : PyObj) :
    Except PyErr HttpConnection :=
  HttpConnection_init [host, http_session, username, password]

/-- Deployment mode of the spec (router vs access-point). -/
inductive DeployMode where
  | router
  | accessPoint
deriving DecidableEq

/-- The two lease-merge variants named by the spec. -/
inductive LeaseMergePolicy where
  | unconditional
  | enrichmentOnly
deriving DecidableEq

/-- Modelled from the spec: the fetch-connected-devices merged-directory
operation is missing from src/ (ddwrt.py has no such method; only unused
fixtures in tests/test_regex.py describe its expected output), so it is
modelled from spec section 4.3: in strict order a wireless pass seeding
MAC-only records, an ARP pass adding or overwriting the IP for known or
new MACs, a DHCP-lease pass that is skipped entirely in access-point mode
and in router mode either adds leases unconditionally or merges them only
for MACs already discovered (a lease supplies IP and name), and a
post-filter dropping entries without an IP when the caller requires
IP-qualified results.  MACs are assumed already canonicalized, as the spec
requires of every source pass. -/
def get_connected_devices (wl : List String) (arp : List (String × String))
    (leases : List (String × String × String)) (mode : DeployMode)
    (policy : LeaseMergePolicy) (require_ip : Bool) :
    List (String × Device) :=
  let d1 := wl.foldl (fun m mac => upsert m mac ⟨mac, none, none⟩) []
  let d2 := arp.foldl
    (fun m p =>
      match lookupA m p.1 with
      | some dev => upsert m p.1 { dev with ip := some p.2 }
      | none => upsert m p.1 ⟨p.1, some p.2, none⟩)
    d1
  let d3 :=
    match mode with
    | .accessPoint => d2
    | .router =>
      leases.foldl
        (fun m l =>
          match policy, lookupA m l.1 with
          | .enrichmentOnly, none => m
          | _, _ => upsert m l.1 ⟨l.1, some l.2.1, some l.2.2⟩)
        d2
  if require_ip then d3.filter (fun p => p.2.ip.isSome) else d3

/-- Helper: a key of `upsert m k v` is a key of `m` or is `k`. -/
theorem keysA_upsert {β : Type} :
    ∀ (m : List (String × β)) (k : String) (v : β) (k' : String),
      k' ∈ keysA (upsert m k v) → k' ∈ keysA m ∨ k' = k := by
  intro m
  induction m with
  | nil =>
    intro k v k' h
    simp [upsert, keysA] at h
    exact .inr h
  | cons hd tl ih =>
    intro k v k' h
    obtain ⟨a, b⟩ := hd
    simp only [upsert] at h
    by_cases hak : a = k
    · rw [if_pos hak] at h
      simp [keysA] at h ⊢
      rcases h with h | h
      · exact .inr h
      · exact .inl (.inr h)
    · rw [if_neg hak] at h
      simp only [keysA, List.map, List.mem_cons] at h ⊢
      rcases h with h | h
      · exact .inl (.inl h)
      · rcases ih k v k' h with h2 | h2
        · exact .inl (.inr h2)
        · exact .inr h2

/-- Helper: every key produced by the devices-dict loop of async_get_leases
over an accumulator comes from the accumulator or is the upper-cased mac
of one of the parsed records. -/
theorem leases_keys_aux :
    ∀ (recs : List LeaseGroups) (acc : List (String × LeaseGroups))
      (k : String),
      k ∈ keysA (recs.foldl
        (fun devices d =>
          let d1 := if d.host = "*" then { d with host := "" } else d
          let d2 := { d1 with mac := strUpper d1.mac }
          upsert devices d2.mac d2) acc) →
      k ∈ keysA acc ∨ k ∈ recs.map (fun g => strUpper g.mac) := by
  intro recs
  induction recs with
  | nil => intro acc k h; exact .inl h
  | cons g gs ih =>
    intro acc k h
    simp only [List.foldl] at h
    rcases ih _ k h with h2 | h2
    · rcases keysA_upsert _ _ _ _ h2 with h3 | h3
      · exact .inl h3
      · right
        simp only [List.map, List.mem_cons]
        left
        rw [h3]
        by_cases hg : g.host = "*" <;> simp [hg]
    · right
      simp only [List.map, List.mem_cons]
      exact .inr h2

/-- Helper: every key produced by the devices-dict loop of async_get_arp
over an accumulator comes from the accumulator or is the upper-cased mac
of one of the parsed records. -/
theorem arp_keys_aux :
    ∀ (recs : List ArpGroups) (acc : List (String × Device)) (k : String),
      k ∈ keysA (recs.foldl
        (fun devices d =>
          let mac := strUpper d.mac
          upsert devices mac ⟨mac, some d.ip, none⟩) acc) →
      k ∈ keysA acc ∨ k ∈ recs.map (fun g => strUpper g.mac) := by
  intro recs
  induction recs with
  | nil => intro acc k h; exact .inl h
  | cons g gs ih =>
    intro acc k h
    simp only [List.foldl] at h
    rcases ih _ k h with h2 | h2
    · rcases keysA_upsert _ _ _ _ h2 with h3 | h3
      · exact .inl h3
      · right
        simp only [List.map, List.mem_cons]
        exact .inl h3
    · right
      simp only [List.map, List.mem_cons]
      exact .inr h2

/-- Helper: the fold of _parse_lines appends, in input order, one group
per non-empty matching line. -/
theorem parse_lines_aux {α : Type} (search : String → Option α) :
    ∀ (lines : List String) (acc : List α),
      lines.foldl
        (fun results line =>
          if line ≠ "" then
            match search line with
            | none => results
            | some g => results ++ [g]
          else results) acc =
      acc ++ (lines.filter (fun l => l ≠ "")).filterMap search := by
  intro lines
  induction lines with
  | nil => intro acc; simp
  | cons l ls ih =>
    intro acc
    rw [List.foldl_cons]
    by_cases hl : l = ""
    · subst hl
      rw [if_neg (by simp : ¬ (("" : String) ≠ ""))]
      rw [List.filter_cons_of_neg (by simp)]
      exact ih acc
    · rw [if_pos hl]
      rw [List.filter_cons_of_pos (by simp [hl])]
      cases hs : search l with
      | none =>
        rw [List.filterMap_cons_none hs]
        exact ih acc
      | some g =>
        rw [List.filterMap_cons_some hs]
        rw [ih (acc ++ [g])]
        simp

/-- Helper: the guarded rate expression of the code equals the unguarded
ceiling: a zero delta makes the ceiling itself zero. -/
theorem ceil_rate_eq (d : ℕ) (e : ℚ) :
    (if d > 0 then (⌈(d : ℚ) / e⌉ : ℤ) else 0) = ⌈(d : ℚ) / e⌉ := by
  by_cases h : d > 0
  · rw [if_pos h]
  · rw [if_neg h]
    have hd : d = 0 := Nat.eq_zero_of_not_pos h
    subst hd
    simp

/-- C1: the merged directory performs wireless seeding, then the ARP pass,
then the lease pass (skipped entirely in access-point mode; in router
mode merged, here in the enrichment-only variant that never introduces a
MAC absent from wireless/ARP), then the require-IP post-filter; on
wireless A,B,C,D, ARP A:ip1, B:ip2, D:ip3 and leases A:ip1b,name1 the
result is the four-entry directory in which D has no name, C has no IP
and A's IP and name come from the lease pass. -/
theorem c1_connected_devices_merge :
    get_connected_devices ["A", "B", "C", "D"]
        [("A", "ip1"), ("B", "ip2"), ("D", "ip3")]
        [("A", "ip1b", "name1")] .router .enrichmentOnly false =
      [("A", ⟨"A", some "ip1b", some "name1"⟩),
       ("B", ⟨"B", some "ip2", none⟩),
       ("C", ⟨"C", none, none⟩),
       ("D", ⟨"D", some "ip3", none⟩)] ∧
    (∀ (leases : List (String × String × String)) (policy : LeaseMergePolicy)
        (rip : Bool) (wl : List String) (arp : List (String × String)),
       get_connected_devices wl arp leases .accessPoint policy rip =
         get_connected_devices wl arp [] .accessPoint policy rip) ∧
    get_connected_devices ["A", "B", "C", "D"]
        [("A", "ip1"), ("B", "ip2"), ("D", "ip3")]
        [("A", "ip1b", "name1")] .router .enrichmentOnly true =
      [("A", ⟨"A", some "ip1b", some "name1"⟩),
       ("B", ⟨"B", some "ip2", none⟩),
       ("D", ⟨"D", some "ip3", none⟩)] ∧
    get_connected_devices ["A", "B", "C", "D"]
        [("A", "ip1"), ("B", "ip2"), ("D", "ip3")]
        [("E", "ip9", "name9"), ("A", "ip1b", "name1")] .router
        .enrichmentOnly false =
      [("A", ⟨"A", some "ip1b", some "name1"⟩),
       ("B", ⟨"B", some "ip2", none⟩),
       ("C", ⟨"C", none, none⟩),
       ("D", ⟨"D", some "ip3", none⟩)] :=
  ⟨by decide, fun _ _ _ _ _ => rfl, by decide, by decide⟩

/-- C2: the claim that a second byte-total call inside the cache window
returns the cached pair without issuing commands FAILS on the code: the
cache fields _trans_cache_timer and _transfer_rates_cache are never
assigned anywhere in the class, so from the constructed state every
cached call - at any clock time, any counters, any cache window - takes
the fetch branch and issues both shell commands; in particular the two
calls 1 second apart both fetch and the second returns the fresh pair,
not the first pair. -/
theorem c2_bytes_total_cache_never_populated :
    (∀ (time_cache now : ℚ) (rx tx : ℕ),
        async_get_bytes_total (initState time_cache) true now rx tx =
          (some (rx, tx), [RX_COMMAND, TX_COMMAND])) ∧
    async_get_bytes_total (initState CHANGE_TIME_CACHE_DEFAULT) true 0 100 200 =
      (some (100, 200), [RX_COMMAND, TX_COMMAND]) ∧
    async_get_bytes_total (initState CHANGE_TIME_CACHE_DEFAULT) true 1 150 250 =
      (some (150, 250), [RX_COMMAND, TX_COMMAND]) ∧
    (some ((150 : ℕ), (250 : ℕ)) ≠ some (100, 200)) :=
  ⟨fun _ _ _ _ => rfl, rfl, rfl, by decide⟩

/-- C5 counterexample: a lease line with a dash-separated MAC matches the
six-hex-pair pattern, yet fetch-leases stores it under the upper-cased
DASH-separated key, not under the uppercase colon-separated form the
claim requires. -/
theorem c5_dash_mac_key_counterexample :
    isLeaseMac "aa-bb-cc-dd-ee-ff" = true ∧
    async_get_leases_shell
        ["51910 aa-bb-cc-dd-ee-ff 123.123.123.125 TV 01:02:03:04:06:08\r"] =
      [("AA-BB-CC-DD-EE-FF",
        ⟨"AA-BB-CC-DD-EE-FF", "123.123.123.125", "TV"⟩)] ∧
    lookupA
      (async_get_leases_shell
        ["51910 aa-bb-cc-dd-ee-ff 123.123.123.125 TV 01:02:03:04:06:08\r"])
      "AA:BB:CC:DD:EE:FF" = none :=
  ⟨by decide, by decide, by decide⟩

/-- C5 (amended): every key of a device mapping produced by fetch-leases
or fetch-arp-table is the Python upper-casing of the MAC string the regex
matched - only letter case is normalised, the matched separator characters
(colon or dash) are preserved in the key. -/
theorem c5_upper_key_preserves_separator :
    (∀ (lines : List String) (k : String),
       k ∈ keysA (async_get_leases_shell lines) →
       k ∈ (parse_lines
             (lines.filter (fun l => ¬ startsWithChars l.data "duid ".data))
             searchLease).map (fun g => strUpper g.mac)) ∧
    (∀ (protocol : String) (lines : List String) (k : String),
       k ∈ keysA (async_get_arp protocol lines).1 →
       k ∈ (parse_lines lines searchArp).map (fun g => strUpper g.mac)) := by
  constructor
  · intro lines k h
    unfold async_get_leases_shell at h
    by_cases hl : lines = []
    · rw [if_pos hl] at h
      simp [keysA] at h
    · rw [if_neg hl] at h
      unfold leases_to_devices at h
      rcases leases_keys_aux _ _ _ h with h2 | h2
      · simp [keysA] at h2
      · exact h2
  · intro protocol lines k h
    unfold async_get_arp at h
    by_cases hp : protocol = "http"
    · rw [if_pos hp] at h
      simp [keysA] at h
    · rw [if_neg hp] at h
      by_cases hl : lines = []
      · rw [if_pos hl] at h
        simp [keysA] at h
      · rw [if_neg hl] at h
        unfold arp_to_devices at h
        rcases arp_keys_aux _ _ _ h with h2 | h2
        · simp [keysA] at h2
        · exact h2

/-- C5 witness: the amended statement applied to the dash-separated lease
line. -/
theorem c5_upper_key_preserves_separator_witness :
    ("AA-BB-CC-DD-EE-FF" ∈
       keysA (async_get_leases_shell
         ["51910 aa-bb-cc-dd-ee-ff 123.123.123.125 TV 01:02:03:04:06:08\r"])) ∧
    "AA-BB-CC-DD-EE-FF" ∈
      (parse_lines
        (["51910 aa-bb-cc-dd-ee-ff 123.123.123.125 TV 01:02:03:04:06:08\r"].filter
          (fun l => ¬ startsWithChars l.data "duid ".data))
        searchLease).map (fun g => strUpper g.mac) :=
  ⟨by decide,
   c5_upper_key_preserves_separator.1
     ["51910 aa-bb-cc-dd-ee-ff 123.123.123.125 TV 01:02:03:04:06:08\r"]
     "AA-BB-CC-DD-EE-FF" (by decide)⟩

set_option maxRecDepth 100000 in
/-- C6: decoding the page's dhcp_leases value through fetch-leases yields
the same device mapping - same canonical keys, same per-key mac/ip/host
fields - as the shell-based lease parse, and on HTTP_LAN_DATA it decodes
into exactly three lease records matching the shell parse of
LEASES_DATA. -/
theorem c6_http_shell_lease_equivalence :
    async_get_leases_http HTTP_LAN_DATA =
      some (async_get_leases_shell LEASES_DATA) ∧
    (async_get_leases_shell LEASES_DATA).length = 3 :=
  ⟨by decide, by decide⟩

/-- C7: the line parser matches each non-empty line, skips empty and
non-matching lines without error and without stopping the scan, and
returns exactly one field-mapping per matched line in input order: it is
the filterMap of the search over the non-empty lines. -/
theorem c7_parse_lines_best_effort {α : Type} (lines : List String)
    (search : String → Option α) :
    parse_lines lines search =
      (lines.filter (fun l => l ≠ "")).filterMap search := by
  unfold parse_lines
  rw [parse_lines_aux search lines []]
  simp

/-- C8: the claim that the retry's output lines are returned to the caller
FAILS on the code: on a first-attempt channel-open failure the method
reconnects and returns the un-awaited recursive call, so the awaited value
is a coroutine object and never a line list; a channel-open failure with
the retry flag set, and a timeout, do clear the connected flag and return
an empty result (the timeout also unbinding the client). -/
theorem c8_ssh_retry_returns_coroutine :
    async_run_command ⟨true, true⟩ false .channelOpenError =
      (⟨true, true⟩, .coroutine true) ∧
    (∀ ls : List String,
        (async_run_command ⟨true, true⟩ false .channelOpenError).2 ≠
          PyValue.lines ls) ∧
    async_run_command ⟨true, true⟩ true .channelOpenError =
      (⟨false, true⟩, .lines []) ∧
    async_run_command ⟨true, true⟩ false .timeout =
      (⟨false, false⟩, .lines []) :=
  ⟨rfl, fun _ h => PyValue.noConfusion h, rfl, rfl⟩

/-- C9: the claim that http construction succeeds and carries the supplied
session FAILS on the code: DdWrt.__init__ passes four positional
arguments (host, http_session, username, password) to
HttpConnection.__init__, whose signature binds exactly three, so every
http construction raises TypeError; and even called with its three
declared arguments the class stores session = None, never a supplied
session. -/
theorem c9_http_construction_type_error :
    (∀ host username password http_session : PyObj,
        ddwrt_init_http_connection host username password http_session =
          .error .typeError) ∧
    (∀ h u p : PyObj,
        HttpConnection_init [h, u, p] = .ok ⟨h, u, p, .noneV, true⟩) :=
  ⟨fun _ _ _ _ => rfl, fun _ _ _ => rfl⟩

/-- C10: with protocol http, fetch-arp-table returns the empty mapping and
issues no command or page fetch, whatever the transport would have
answered. -/
theorem c10_http_arp_empty : ∀ (lines : List String),
    async_get_arp "http" lines = ([], []) := by
  intro lines
  rfl

/-- C3: from a fresh instance the first rate call records the counters and
timestamp as baseline and returns the zero rate; with a baseline present,
a call strictly inside the 30-second floor returns the previously
computed rate pair unchanged and leaves the whole state unchanged; a call
at or past the floor returns the ceiling of delta over elapsed seconds
for rx and tx. -/
theorem c3_transfer_rates_floor :
    (∀ (ct now : ℚ) (rx tx : ℕ) (uc : Bool),
        async_get_current_transfer_rates (initState ct) uc now rx tx =
          (.ok (0, 0),
           { initState ct with
               latest_transfer_check := some now,
               rx_latest := some rx,
               tx_latest := some tx },
           [RX_COMMAND, TX_COMMAND])) ∧
    (∀ (st : DdWrtState) (now tc : ℚ) (rx tx rxp txp : ℕ) (uc : Bool),
        st.rx_latest = some rxp → st.tx_latest = some txp →
        st.latest_transfer_check = some tc → now - tc < 30 →
        (async_get_current_transfer_rates st uc now rx tx).1 =
            .ok st.latest_transfer_data ∧
          (async_get_current_transfer_rates st uc now rx tx).2.1 = st) ∧
    (∀ (st : DdWrtState) (now tc : ℚ) (rx tx rxp txp : ℕ) (uc : Bool),
        st.rx_latest = some rxp → st.tx_latest = some txp →
        st.latest_transfer_check = some tc → ¬ (now - tc < 30) →
        st.trans_cache_timer = none →
        (async_get_current_transfer_rates st uc now rx tx).1 =
          .ok (⌈(((if rx < rxp then rx else rx - rxp) : ℕ) : ℚ) / (now - tc)⌉,
               ⌈(((if tx < txp then tx else tx - txp) : ℕ) : ℚ) /
                 (now - tc)⌉)) := by
  refine ⟨?_, ?_, ?_⟩
  · intro ct now rx tx uc
    cases uc <;> rfl
  · intro st now tc rx tx rxp txp uc h1 h2 h3 h4
    constructor <;>
      simp only [async_get_current_transfer_rates, h1, h2, h3, if_pos h4]
  · intro st now tc rx tx rxp txp uc h1 h2 h3 h4 h5
    cases uc <;>
      · simp only [async_get_current_transfer_rates, async_get_bytes_total,
          h1, h2, h3, h5, if_neg h4, Bool.false_eq_true, if_false, if_true]
        rw [ceil_rate_eq, ceil_rate_eq]

/-- C3 witness: the floor and the recomputation branch at concrete inputs:
the state holds baseline (100, 100) taken at time 0 with cached rates
(7, 9); a call at time 10 returns (7, 9) unchanged, a call at time 40
returns the ceilings. -/
theorem c3_transfer_rates_floor_witness :
    (((10 : ℚ) - 0 < 30) ∧
     (async_get_current_transfer_rates
         ⟨some 100, some 100, some 0, 5, none, none, (7, 9)⟩
         true 10 150 250).1 = .ok (7, 9)) ∧
    (¬ ((40 : ℚ) - 0 < 30) ∧
     (async_get_current_transfer_rates
         ⟨some 100, some 100, some 0, 5, none, none, (7, 9)⟩
         true 40 1100 600).1 =
       .ok (⌈(((if 1100 < 100 then 1100 else 1100 - 100) : ℕ) : ℚ) /
              ((40 : ℚ) - 0)⌉,
            ⌈(((if 600 < 100 then 600 else 600 - 100) : ℕ) : ℚ) /
              ((40 : ℚ) - 0)⌉)) :=
  ⟨⟨by norm_num,
    (c3_transfer_rates_floor.2.1
      ⟨some 100, some 100, some 0, 5, none, none, (7, 9)⟩
      10 0 150 250 100 100 true rfl rfl rfl (by norm_num)).1⟩,
   ⟨by norm_num,
    c3_transfer_rates_floor.2.2
      ⟨some 100, some 100, some 0, 5, none, none, (7, 9)⟩
      40 0 1100 600 100 100 true rfl rfl rfl (by norm_num) rfl⟩⟩

/-- C4: in every rate computation past the floor, each counter's delta is
current - previous when current is at least previous and the current
reading itself on a counter reset; a zero delta yields exactly 0 and the
returned rates are never negative. -/
theorem c4_delta_clamp_nonneg :
    ∀ (st : DdWrtState) (now tc : ℚ) (rx tx rxp txp : ℕ) (uc : Bool),
      st.rx_latest = some rxp → st.tx_latest = some txp →
      st.latest_transfer_check = some tc → ¬ (now - tc < 30) →
      st.trans_cache_timer = none →
      ∃ r1 r2 : ℤ,
        (async_get_current_transfer_rates st uc now rx tx).1 = .ok (r1, r2) ∧
        (rxp ≤ rx → r1 = ⌈((rx - rxp : ℕ) : ℚ) / (now - tc)⌉) ∧
        (rx < rxp → r1 = ⌈(rx : ℚ) / (now - tc)⌉) ∧
        ((if rx < rxp then rx else rx - rxp) = 0 → r1 = 0) ∧
        0 ≤ r1 ∧
        (txp ≤ tx → r2 = ⌈((tx - txp : ℕ) : ℚ) / (now - tc)⌉) ∧
        (tx < txp → r2 = ⌈(tx : ℚ) / (now - tc)⌉) ∧
        ((if tx < txp then tx else tx - txp) = 0 → r2 = 0) ∧
        0 ≤ r2 := by
  intro st now tc rx tx rxp txp uc h1 h2 h3 h4 h5
  have he0 : (0 : ℚ) ≤ now - tc := le_trans (by norm_num) (not_lt.mp h4)
  have he : (async_get_current_transfer_rates st uc now rx tx).1 =
      .ok (if (if rx < rxp then rx else rx - rxp) > 0
             then ⌈(((if rx < rxp then rx else rx - rxp) : ℕ) : ℚ) /
                    (now - tc)⌉
             else 0,
           if (if tx < txp then tx else tx - txp) > 0
             then ⌈(((if tx < txp then tx else tx - txp) : ℕ) : ℚ) /
                    (now - tc)⌉
             else 0) := by
    cases uc <;>
      simp only [async_get_current_transfer_rates, async_get_bytes_total,
        h1, h2, h3, h5, if_neg h4, Bool.false_eq_true, if_false, if_true]
  refine ⟨_, _, he, ?_, ?_, ?_, ?_, ?_, ?_, ?_, ?_⟩
  · intro hle
    rw [ceil_rate_eq, if_neg (Nat.not_lt.mpr hle)]
  · intro hlt
    rw [ceil_rate_eq, if_pos hlt]
  · intro hz
    rw [hz]
    simp
  · by_cases hpos : (if rx < rxp then rx else rx - rxp) > 0
    · rw [if_pos hpos]
      exact Int.ceil_nonneg (div_nonneg (Nat.cast_nonneg _) he0)
    · simp [if_neg hpos]
  · intro hle
    rw [ceil_rate_eq, if_neg (Nat.not_lt.mpr hle)]
  · intro hlt
    rw [ceil_rate_eq, if_pos hlt]
  · intro hz
    rw [hz]
    simp
  · by_cases hpos : (if tx < txp then tx else tx - txp) > 0
    · rw [if_pos hpos]
      exact Int.ceil_nonneg (div_nonneg (Nat.cast_nonneg _) he0)
    · simp [if_neg hpos]

/-- C4 witness: the delta rules at a concrete recomputation: rx resets
from 1100 to 50 (delta is the new reading), tx stays at 1100 (zero delta,
zero rate). -/
theorem c4_delta_clamp_nonneg_witness :
    (((⟨some 1100, some 1100, some 0, 5, none, none, (0, 0)⟩ :
          DdWrtState).rx_latest = some 1100) ∧
     ¬ ((40 : ℚ) - 0 < 30)) ∧
    (∃ r1 r2 : ℤ,
      (async_get_current_transfer_rates
          ⟨some 1100, some 1100, some 0, 5, none, none, (0, 0)⟩
          true 40 50 1100).1 = .ok (r1, r2) ∧
      ((1100 : ℕ) ≤ 50 → r1 = ⌈(((50 : ℕ) - 1100 : ℕ) : ℚ) / ((40 : ℚ) - 0)⌉) ∧
      ((50 : ℕ) < 1100 → r1 = ⌈((50 : ℕ) : ℚ) / ((40 : ℚ) - 0)⌉) ∧
      ((if (50 : ℕ) < 1100 then (50 : ℕ) else 50 - 1100) = 0 → r1 = 0) ∧
      0 ≤ r1 ∧
      ((1100 : ℕ) ≤ 1100 →
        r2 = ⌈(((1100 : ℕ) - 1100 : ℕ) : ℚ) / ((40 : ℚ) - 0)⌉) ∧
      ((1100 : ℕ) < 1100 → r2 = ⌈((1100 : ℕ) : ℚ) / ((40 : ℚ) - 0)⌉) ∧
      ((if (1100 : ℕ) < 1100 then (1100 : ℕ) else 1100 - 1100) = 0 → r2 = 0) ∧
      0 ≤ r2) :=
  ⟨⟨rfl, by norm_num⟩,
   c4_delta_clamp_nonneg
     ⟨some 1100, some 1100, some 0, 5, none, none, (0, 0)⟩
     40 0 50 1100 1100 1100 true rfl rfl rfl (by norm_num) rfl⟩

end Aioddwrt
